import Mathlib

/-!
# OS X ZFS vnode operation wrappers (`module/zfs/zfs_vnops_osx.c`)

A shallow embedding of the vnode-operation adapters and of the five vnode
operation templates.

* Opaque host handles (`struct vnode *`, `struct uio *`, `vfs_context_t`,
  `cred_t *`) are natural-number identifiers; a pointer is an address, with
  `NULL = 0`.
* Constants and accessor functions that come from host or engine headers and are
  not defined in the file are fields of `Host`.
* The filesystem engine (`zfs_rename`, `zfs_read`, ...) is external: `Engine`
  supplies the status every engine entry point returns for given arguments.
* Every adapter is a function `World → Int × World`.  The `World` carries the
  filesystem instance the call runs against, the integer slots the caller owns,
  and the list `calls` of the external calls made so far, oldest first.
-/

namespace ZfsVnopsOsx

/-! ## Handles and argument bundles -/

/-- Identifier of a `struct vnode *`. -/
abbrev Vnode := Nat
/-- Identifier of a `struct uio *`. -/
abbrev Uio := Nat
/-- Identifier of a `vfs_context_t` (also used as `caller_context_t *`). -/
abbrev Context := Nat
/-- Identifier of a `cred_t *`. -/
abbrev Cred := Nat
/-- Identifier of a `struct mount *`. -/
abbrev Mount := Nat
/-- An address; `NULL` is address zero. -/
abbrev Ptr := Nat

/-- The null pointer. -/
def NULL : Ptr := 0

/-- The `struct componentname`: one path segment with its length and flags. -/
structure componentname where
  cn_nameptr : String
  cn_namelen : Int
  cn_flags : Nat
  deriving DecidableEq, Repr

/-- The `struct vnode_vattr` fields the adapters read. -/
structure vattr_t where
  va_vaflags : Nat
  va_mode : Nat
  deriving DecidableEq, Repr

/-- The `vcexcl_t` create mode. -/
inductive vcexcl_t where
  | NONEXCL
  | EXCL
  deriving DecidableEq, Repr

/-- The two `zfsvfs_t` fields whose address `zfs_vnop_ioctl` hands to `copyout`. -/
inductive ZfsvfsField where
  | z_mount_time
  | z_last_unmount_time
  deriving DecidableEq, Repr

/-- The `zfsvfs_t` fields the adapters and the entry guard touch: the two
timestamps, the busy counter and the teardown flag. -/
structure zfsvfs_t where
  z_mount_time : Nat
  z_last_unmount_time : Nat
  z_op_cnt : Nat
  z_unmounted : Bool
  deriving DecidableEq, Repr

/-- Arguments of `zfs_vnop_ioctl`. -/
structure vnop_ioctl_args where
  a_vp : Vnode
  a_command : Nat
  a_data : Ptr
  a_fflag : Int
  a_context : Context
  deriving DecidableEq, Repr

/-- Arguments of `zfs_vnop_read`. -/
structure vnop_read_args where
  a_vp : Vnode
  a_uio : Uio
  a_ioflag : Int
  a_context : Context
  deriving DecidableEq, Repr

/-- Arguments of `zfs_vnop_create`. -/
structure vnop_create_args where
  a_dvp : Vnode
  a_vpp : Ptr
  a_cnp : componentname
  a_vap : vattr_t
  a_context : Context
  deriving DecidableEq, Repr

/-- Arguments of `zfs_vnop_readdir`. -/
structure vnop_readdir_args where
  a_vp : Vnode
  a_uio : Uio
  a_flags : Int
  a_eofflag : Ptr
  a_numdirent : Ptr
  a_context : Context
  deriving DecidableEq, Repr

/-- Arguments of `zfs_vnop_rename`. -/
structure vnop_rename_args where
  a_fdvp : Vnode
  a_fvp : Vnode
  a_fcnp : componentname
  a_tdvp : Vnode
  a_tvp : Vnode
  a_tcnp : componentname
  a_context : Context
  deriving DecidableEq, Repr

/-- Arguments of `zfs_vnop_link`. -/
structure vnop_link_args where
  a_vp : Vnode
  a_tdvp : Vnode
  a_cnp : componentname
  a_context : Context
  deriving DecidableEq, Repr

/-- Arguments of `zfs_vnop_open`. -/
structure vnop_open_args where
  a_vp : Vnode
  a_mode : Int
  a_context : Context
  deriving DecidableEq, Repr

/-- Arguments of `zfs_vnop_close`. -/
structure vnop_close_args where
  a_vp : Vnode
  a_fflag : Int
  a_context : Context
  deriving DecidableEq, Repr

/-- Arguments of `zfs_vnop_write`. -/
structure vnop_write_args where
  a_vp : Vnode
  a_uio : Uio
  a_ioflag : Int
  a_context : Context
  deriving DecidableEq, Repr

/-- Arguments of `zfs_vnop_lookup`. -/
structure vnop_lookup_args where
  a_dvp : Vnode
  a_vpp : Ptr
  a_cnp : componentname
  a_context : Context
  deriving DecidableEq, Repr

/-- Arguments of `zfs_vnop_remove`. -/
structure vnop_remove_args where
  a_dvp : Vnode
  a_vp : Vnode
  a_cnp : componentname
  a_flags : Int
  a_context : Context
  deriving DecidableEq, Repr

/-- Arguments of `zfs_vnop_mkdir`. -/
structure vnop_mkdir_args where
  a_dvp : Vnode
  a_vpp : Ptr
  a_cnp : componentname
  a_vap : vattr_t
  a_context : Context
  deriving DecidableEq, Repr

/-- Arguments of `zfs_vnop_rmdir`. -/
structure vnop_rmdir_args where
  a_dvp : Vnode
  a_vp : Vnode
  a_cnp : componentname
  a_context : Context
  deriving DecidableEq, Repr

/-- Arguments of `zfs_vnop_getattr`; `a_vap` is the address of the attribute
struct the engine fills. -/
structure vnop_getattr_args where
  a_vp : Vnode
  a_vap : Ptr
  a_context : Context
  deriving DecidableEq, Repr

/-- Arguments of `zfs_vnop_setattr`. -/
structure vnop_setattr_args where
  a_vp : Vnode
  a_vap : vattr_t
  a_context : Context
  deriving DecidableEq, Repr

/-- Arguments of `zfs_vnop_symlink`. -/
structure vnop_symlink_args where
  a_dvp : Vnode
  a_vpp : Ptr
  a_cnp : componentname
  a_vap : vattr_t
  a_target : String
  a_context : Context
  deriving DecidableEq, Repr

/-- Arguments of `zfs_vnop_readlink`. -/
structure vnop_readlink_args where
  a_vp : Vnode
  a_uio : Uio
  a_context : Context
  deriving DecidableEq, Repr

/-! ## External calls -/

/-- One external call made by an adapter, with the arguments it was given.
`ZFS_ENTER` stands for one acquisition of the busy token and `ZFS_EXIT` for one
release. -/
inductive Call where
  | ZFS_ENTER
  | ZFS_EXIT
  | zfs_vnop_ioctl_fsync (vp : Vnode) (ctx : Context)
  | copyout (field : ZfsvfsField) (value : Nat) (useraddr : Ptr)
  | zfs_read (vp : Vnode) (uio : Uio) (ioflag : Int) (cr : Cred) (ct : Context)
  | zfs_create (dvp : Vnode) (cnp : componentname) (vap : vattr_t) (excl : vcexcl_t)
      (mode : Int) (vpp : Ptr) (cr : Cred) (flag : Int) (ctx : Context) (vsecp : Ptr)
  | zfs_readdir (vp : Vnode) (uio : Uio) (cr : Cred) (eofflag : Ptr) (numdirent : Ptr)
      (cookies : Ptr)
  | zfs_rename (fdvp : Vnode) (fcnp : componentname) (tdvp : Vnode) (tcnp : componentname)
      (cr : Cred) (ct : Context)
  | cache_purge (vp : Vnode)
  | zfs_link (tdvp : Vnode) (vp : Vnode) (cnp : componentname) (cr : Cred)
  | zfs_putapage
  | zfs_open (vp : Vnode) (mode : Int) (cr : Cred) (ct : Context)
  | zfs_close (vp : Vnode) (fflag : Int) (count : Int) (offset : Int) (cr : Cred)
      (ct : Context)
  | zfs_write (vp : Vnode) (uio : Uio) (ioflag : Int) (cr : Cred) (ct : Context)
  | zfs_lookup (dvp : Vnode) (cnp : componentname) (vpp : Ptr) (pnp : Ptr) (flags : Int)
      (rdir : Ptr) (cr : Cred) (ctx : Context) (direntflags : Ptr) (realpnp : Ptr)
  | zfs_remove (dvp : Vnode) (cnp : componentname) (cr : Cred) (ct : Context) (flags : Int)
  | zfs_mkdir (dvp : Vnode) (cnp : componentname) (vap : vattr_t) (vpp : Ptr) (cr : Cred)
      (ct : Context) (flags : Int) (vsecp : Ptr)
  | zfs_rmdir (dvp : Vnode) (cnp : componentname) (cwd : Ptr) (cr : Cred) (ct : Context)
      (flags : Int)
  | zfs_getattr (vp : Vnode) (vap : Ptr) (flags : Int) (cr : Cred) (ct : Context)
  | zfs_setattr (vp : Vnode) (vap : vattr_t) (flag : Int) (cr : Cred) (ct : Context)
  | zfs_symlink (dvp : Vnode) (cnp : componentname) (vap : vattr_t) (target : String)
      (cr : Cred)
  | zfs_readlink (vp : Vnode) (uio : Uio) (cr : Cred)
  deriving DecidableEq, Repr

/-- Whether a call is a `cache_purge`. -/
def Call.isCachePurge : Call → Bool
  | .cache_purge _ => true
  | _ => false

/-- Whether a call acquires the busy token. -/
def Call.isEnter : Call → Bool
  | .ZFS_ENTER => true
  | _ => false

/-- Whether a call releases the busy token. -/
def Call.isExit : Call → Bool
  | .ZFS_EXIT => true
  | _ => false

/-- Whether a call enters the filesystem engine (everything but the guard
events, `copyout` and `cache_purge`, which belong to the host kernel). -/
def Call.isEngine : Call → Bool
  | .ZFS_ENTER => false
  | .ZFS_EXIT => false
  | .copyout _ _ _ => false
  | .cache_purge _ => false
  | _ => true

/-- Whether a call is one of the two `zfs_vnop_ioctl` handlers. -/
def Call.isIoctlHandler : Call → Bool
  | .zfs_vnop_ioctl_fsync _ _ => true
  | .copyout _ _ _ => true
  | _ => false

/-- Whether a call is `zfs_link`. -/
def Call.isLink : Call → Bool
  | .zfs_link _ _ _ _ => true
  | _ => false

/-! ## The environment of the adapters -/

/-- Integer slots addressed by pointers the caller passes in. -/
abbrev Mem := Ptr → Int

/-- What the file takes from host and engine headers without defining it:
status codes, command codes, flag masks, limits and accessor functions. -/
structure Host where
  EXDEV : Int
  ENAMETOOLONG : Int
  ENOTTY : Int
  ENOTSUP : Int
  state_error : Int
  F_FULLFSYNC : Nat
  SPOTLIGHT_GET_MOUNT_TIME : Nat
  SPOTLIGHT_GET_UNMOUNT_TIME : Nat
  VA_EXCLUSIVE : Nat
  ZAP_MAXNAMELEN : Int
  vfs_context_ucred : Context → Cred
  vnode_mount : Vnode → Mount
  zfs_ioflags : Int → Int

/-- The status each external entry point returns for given arguments.
`zfs_readdir` also receives the caller-visible memory and returns it as it
leaves it. -/
structure Engine where
  zfs_vnop_ioctl_fsync : Vnode → Context → zfsvfs_t → Int
  copyout : ZfsvfsField → Nat → Ptr → Int
  zfs_read : Vnode → Uio → Int → Cred → Context → Int
  zfs_create : Vnode → componentname → vattr_t → vcexcl_t → Int → Ptr → Cred → Int →
    Context → Ptr → Int
  zfs_readdir : Vnode → Uio → Cred → Ptr → Ptr → Ptr → Mem → Int × Mem
  zfs_rename : Vnode → componentname → Vnode → componentname → Cred → Context → Int
  zfs_link : Vnode → Vnode → componentname → Cred → Int
  zfs_putapage : Int
  zfs_open : Vnode → Int → Cred → Context → Int
  zfs_close : Vnode → Int → Int → Int → Cred → Context → Int
  zfs_write : Vnode → Uio → Int → Cred → Context → Int
  zfs_lookup : Vnode → componentname → Ptr → Ptr → Int → Ptr → Cred → Context → Ptr →
    Ptr → Int
  zfs_remove : Vnode → componentname → Cred → Context → Int → Int
  zfs_mkdir : Vnode → componentname → vattr_t → Ptr → Cred → Context → Int → Ptr → Int
  zfs_rmdir : Vnode → componentname → Ptr → Cred → Context → Int → Int
  zfs_getattr : Vnode → Ptr → Int → Cred → Context → Int
  zfs_setattr : Vnode → vattr_t → Int → Cred → Context → Int
  zfs_symlink : Vnode → componentname → vattr_t → String → Cred → Int
  zfs_readlink : Vnode → Uio → Cred → Int

/-- The state a call runs against: the filesystem instance reached through
`VTOZ(vp)->z_zfsvfs`, the caller-visible integer slots, and the external calls
made so far (oldest first). -/
structure World where
  zfsvfs : zfsvfs_t
  mem : Mem
  calls : List Call

/-- Record one external call. -/
def World.emit (w : World) (c : Call) : World :=
  { w with calls := w.calls ++ [c] }

/-- The expansion of `DECLARE_CRED(ap)`: `cr = vfs_context_ucred(ap->a_context)`. -/
def DECLARE_CRED (H : Host) (a_context : Context) : Cred :=
  H.vfs_context_ucred a_context

/-- The expansion of `DECLARE_CONTEXT(ap)`: `ct = (caller_context_t *)ap->a_context`. -/
def DECLARE_CONTEXT (a_context : Context) : Context :=
  a_context

/-! ## Adapters -/

/-- The adapter `zfs_vnop_rename`: call `zfs_rename`, then `cache_purge(ap->a_tdvp)`,
then return the engine status. -/
def zfs_vnop_rename (H : Host) (E : Engine) (ap : vnop_rename_args) (w : World) :
    Int × World :=
  let cr := DECLARE_CRED H ap.a_context
  let ct := DECLARE_CONTEXT ap.a_context
  let error := E.zfs_rename ap.a_fdvp ap.a_fcnp ap.a_tdvp ap.a_tcnp cr ct
  let w1 := w.emit (Call.zfs_rename ap.a_fdvp ap.a_fcnp ap.a_tdvp ap.a_tcnp cr ct)
  /- Remove entries from the namei cache. -/
  let w2 := w1.emit (Call.cache_purge ap.a_tdvp)
  (error, w2)

/-- The adapter `zfs_vnop_readdir`.  The statement `ap->a_numdirent = 0;` assigns
to the pointer field of the bundle (`a_numdirent` is an `int *`), so the field
becomes `NULL`; the integer it pointed to is not written.  The engine then
receives `ap->a_numdirent`, the field just assigned.  The bundle is returned as
the call leaves it.  (`DECLARE_CRED(cr)` in the source is read as
`DECLARE_CRED(ap)`.) -/
def zfs_vnop_readdir (H : Host) (E : Engine) (ap : vnop_readdir_args) (w : World) :
    Int × vnop_readdir_args × World :=
  let cr := DECLARE_CRED H ap.a_context
  let ap1 := { ap with a_numdirent := 0 }
  let r := E.zfs_readdir ap1.a_vp ap1.a_uio cr ap1.a_eofflag ap1.a_numdirent NULL w.mem
  let w1 := w.emit (Call.zfs_readdir ap1.a_vp ap1.a_uio cr ap1.a_eofflag ap1.a_numdirent NULL)
  (r.1, ap1, { w1 with mem := r.2 })

/-- The adapter `zfs_vnop_link`: the cross-mount check, then the name-length check
(the source's `cnp` is `ap->a_cnp`), then `zfs_link`. -/
def zfs_vnop_link (H : Host) (E : Engine) (ap : vnop_link_args) (w : World) :
    Int × World :=
  let cr := DECLARE_CRED H ap.a_context
  /- XXX Translate this inside zfs_link() instead. -/
  if H.vnode_mount ap.a_vp ≠ H.vnode_mount ap.a_tdvp then
    (H.EXDEV, w)
  else if ap.a_cnp.cn_namelen ≥ H.ZAP_MAXNAMELEN then
    (H.ENAMETOOLONG, w)
  else
    (E.zfs_link ap.a_tdvp ap.a_vp ap.a_cnp cr,
      w.emit (Call.zfs_link ap.a_tdvp ap.a_vp ap.a_cnp cr))

/-- The create mode `zfs_vnop_create` computes:
`(vap->va_vaflags & VA_EXCLUSIVE) ? EXCL : NONEXCL`. -/
def create_excl (H : Host) (vap : vattr_t) : vcexcl_t :=
  if vap.va_vaflags &&& H.VA_EXCLUSIVE ≠ 0 then vcexcl_t.EXCL else vcexcl_t.NONEXCL

/-- The adapter `zfs_vnop_create`.  The source passes an identifier `mode` it
never declares; it is an argument here. -/
def zfs_vnop_create (H : Host) (E : Engine) (mode : Int) (ap : vnop_create_args)
    (w : World) : Int × World :=
  let cnp := ap.a_cnp
  let vap := ap.a_vap
  let cr := DECLARE_CRED H ap.a_context
  let excl := create_excl H vap
  (E.zfs_create ap.a_dvp cnp vap excl mode ap.a_vpp cr 0 ap.a_context NULL,
    w.emit (Call.zfs_create ap.a_dvp cnp vap excl mode ap.a_vpp cr 0 ap.a_context NULL))

/-- The adapter `zfs_vnop_read`: normalise the I/O flags and call `zfs_read`. -/
def zfs_vnop_read (H : Host) (E : Engine) (ap : vnop_read_args) (w : World) :
    Int × World :=
  let ioflag := H.zfs_ioflags ap.a_ioflag
  let cr := DECLARE_CRED H ap.a_context
  let ct := DECLARE_CONTEXT ap.a_context
  (E.zfs_read ap.a_vp ap.a_uio ioflag cr ct,
    w.emit (Call.zfs_read ap.a_vp ap.a_uio ioflag cr ct))

/-- The adapter `zfs_vnop_open`: `return (zfs_open(&ap->a_vp, ap->a_mode, cr, ct));`. -/
def zfs_vnop_open (H : Host) (E : Engine) (ap : vnop_open_args) (w : World) :
    Int × World :=
  let cr := DECLARE_CRED H ap.a_context
  let ct := DECLARE_CONTEXT ap.a_context
  (E.zfs_open ap.a_vp ap.a_mode cr ct, w.emit (Call.zfs_open ap.a_vp ap.a_mode cr ct))

/-- The adapter `zfs_vnop_close`: `zfs_close` with `count = 1` and `offset = 0`. -/
def zfs_vnop_close (H : Host) (E : Engine) (ap : vnop_close_args) (w : World) :
    Int × World :=
  let count : Int := 1
  let offset : Int := 0
  let cr := DECLARE_CRED H ap.a_context
  let ct := DECLARE_CONTEXT ap.a_context
  (E.zfs_close ap.a_vp ap.a_fflag count offset cr ct,
    w.emit (Call.zfs_close ap.a_vp ap.a_fflag count offset cr ct))

/-- The adapter `zfs_vnop_write`: normalise the I/O flags and call `zfs_write`. -/
def zfs_vnop_write (H : Host) (E : Engine) (ap : vnop_write_args) (w : World) :
    Int × World :=
  let ioflag := H.zfs_ioflags ap.a_ioflag
  let cr := DECLARE_CRED H ap.a_context
  let ct := DECLARE_CONTEXT ap.a_context
  (E.zfs_write ap.a_vp ap.a_uio ioflag cr ct,
    w.emit (Call.zfs_write ap.a_vp ap.a_uio ioflag cr ct))

/-- The adapter `zfs_vnop_lookup`: `zfs_lookup` with `pnp`, `rdir`, `direntflags`
and `realpnp` null and `flags = 0`; the engine status is returned. -/
def zfs_vnop_lookup (H : Host) (E : Engine) (ap : vnop_lookup_args) (w : World) :
    Int × World :=
  let cnp := ap.a_cnp
  let cr := DECLARE_CRED H ap.a_context
  let error := E.zfs_lookup ap.a_dvp cnp ap.a_vpp NULL 0 NULL cr ap.a_context NULL NULL
  /- XXX FreeBSD has some namecache stuff here. -/
  (error, w.emit (Call.zfs_lookup ap.a_dvp cnp ap.a_vpp NULL 0 NULL cr ap.a_context NULL NULL))

/-- The adapter `zfs_vnop_remove`: `return (zfs_remove(ap->a_dvp, ap->a_cnp, cr, ct, 0));`. -/
def zfs_vnop_remove (H : Host) (E : Engine) (ap : vnop_remove_args) (w : World) :
    Int × World :=
  let cr := DECLARE_CRED H ap.a_context
  let ct := DECLARE_CONTEXT ap.a_context
  (E.zfs_remove ap.a_dvp ap.a_cnp cr ct 0, w.emit (Call.zfs_remove ap.a_dvp ap.a_cnp cr ct 0))

/-- The adapter `zfs_vnop_mkdir` (the source's undeclared `vap` is `ap->a_vap`). -/
def zfs_vnop_mkdir (H : Host) (E : Engine) (ap : vnop_mkdir_args) (w : World) :
    Int × World :=
  let cr := DECLARE_CRED H ap.a_context
  let ct := DECLARE_CONTEXT ap.a_context
  (E.zfs_mkdir ap.a_dvp ap.a_cnp ap.a_vap ap.a_vpp cr ct 0 NULL,
    w.emit (Call.zfs_mkdir ap.a_dvp ap.a_cnp ap.a_vap ap.a_vpp cr ct 0 NULL))

/-- The adapter `zfs_vnop_rmdir`: `zfs_rmdir` with a null `cwd` and `flags = 0`. -/
def zfs_vnop_rmdir (H : Host) (E : Engine) (ap : vnop_rmdir_args) (w : World) :
    Int × World :=
  let cr := DECLARE_CRED H ap.a_context
  let ct := DECLARE_CONTEXT ap.a_context
  (E.zfs_rmdir ap.a_dvp ap.a_cnp NULL cr ct 0,
    w.emit (Call.zfs_rmdir ap.a_dvp ap.a_cnp NULL cr ct 0))

/-- The adapter `zfs_vnop_getattr`: `return (zfs_getattr(ap->a_vp, ap->a_vap, 0, cr, ct));`. -/
def zfs_vnop_getattr (H : Host) (E : Engine) (ap : vnop_getattr_args) (w : World) :
    Int × World :=
  let cr := DECLARE_CRED H ap.a_context
  let ct := DECLARE_CONTEXT ap.a_context
  (E.zfs_getattr ap.a_vp ap.a_vap 0 cr ct, w.emit (Call.zfs_getattr ap.a_vp ap.a_vap 0 cr ct))

/-- The adapter `zfs_vnop_setattr`: `return (zfs_setattr(ap->a_vp, ap->a_vap, 0, cr, ct));`. -/
def zfs_vnop_setattr (H : Host) (E : Engine) (ap : vnop_setattr_args) (w : World) :
    Int × World :=
  let cr := DECLARE_CRED H ap.a_context
  let ct := DECLARE_CONTEXT ap.a_context
  (E.zfs_setattr ap.a_vp ap.a_vap 0 cr ct, w.emit (Call.zfs_setattr ap.a_vp ap.a_vap 0 cr ct))

/-- The adapter `zfs_vnop_symlink`: call `zfs_symlink` and return its status. -/
def zfs_vnop_symlink (H : Host) (E : Engine) (ap : vnop_symlink_args) (w : World) :
    Int × World :=
  let cr := DECLARE_CRED H ap.a_context
  /- OS X doesn't need to set vap->va_mode? -/
  let error := E.zfs_symlink ap.a_dvp ap.a_cnp ap.a_vap ap.a_target cr
  /- XXX zfs_attach_vnode()? -/
  (error, w.emit (Call.zfs_symlink ap.a_dvp ap.a_cnp ap.a_vap ap.a_target cr))

/-- The adapter `zfs_vnop_readlink`: `return (zfs_readlink(ap->a_vp, ap->a_uio, cr));`. -/
def zfs_vnop_readlink (H : Host) (E : Engine) (ap : vnop_readlink_args) (w : World) :
    Int × World :=
  let cr := DECLARE_CRED H ap.a_context
  (E.zfs_readlink ap.a_vp ap.a_uio cr, w.emit (Call.zfs_readlink ap.a_vp ap.a_uio cr))

/-- The calls an adapter added to the world it started from. -/
def calls_added (w w1 : World) : List Call :=
  w1.calls.drop w.calls.length

/-- An adapter run from `w` to `w1` with result `status` delegates once to the
engine call `c` with engine status `e`: the result is `e`, the calls recorded
before the run are kept, and the engine calls the run added are `c` and nothing
else. -/
def DelegatesOnce (w : World) (status : Int) (w1 : World) (e : Int) (c : Call) : Prop :=
  status = e ∧ w.calls <+: w1.calls ∧ (calls_added w w1).filter Call.isEngine = [c]

/-- Modelled from the spec: the `ZFS_EXIT` guard release, whose definition is not
in the file.  "The counter is decremented exactly once": one release, the busy
counter goes down by one. -/
def ZFS_EXIT (w : World) : World :=
  { w with
    zfsvfs := { w.zfsvfs with z_op_cnt := w.zfsvfs.z_op_cnt - 1 }
    calls := w.calls ++ [Call.ZFS_EXIT] }

/-- Modelled from the spec: the `ZFS_ENTER` guard acquisition, whose definition is
not in the file.  "Increment busy counter; if instance is already TEARING-DOWN,
immediately decrement and return a state error without invoking the engine."
The result is `some e` when the enclosing function returns `e` at once, and
`none` when it goes on. -/
def ZFS_ENTER (H : Host) (w : World) : Option Int × World :=
  let w1 : World :=
    { w with
      zfsvfs := { w.zfsvfs with z_op_cnt := w.zfsvfs.z_op_cnt + 1 }
      calls := w.calls ++ [Call.ZFS_ENTER] }
  if w1.zfsvfs.z_unmounted then (some H.state_error, ZFS_EXIT w1) else (none, w1)

/-- The `switch (ap->a_command)` of `zfs_vnop_ioctl`. -/
def zfs_vnop_ioctl_switch (H : Host) (E : Engine) (ap : vnop_ioctl_args) (w : World) :
    Int × World :=
  let zfsvfs := w.zfsvfs
  let useraddr := ap.a_data
  if ap.a_command = H.F_FULLFSYNC then
    (E.zfs_vnop_ioctl_fsync ap.a_vp ap.a_context zfsvfs,
      w.emit (Call.zfs_vnop_ioctl_fsync ap.a_vp ap.a_context))
  else if ap.a_command = H.SPOTLIGHT_GET_MOUNT_TIME then
    (E.copyout ZfsvfsField.z_mount_time zfsvfs.z_mount_time useraddr,
      w.emit (Call.copyout ZfsvfsField.z_mount_time zfsvfs.z_mount_time useraddr))
  else if ap.a_command = H.SPOTLIGHT_GET_UNMOUNT_TIME then
    (E.copyout ZfsvfsField.z_last_unmount_time zfsvfs.z_last_unmount_time useraddr,
      w.emit (Call.copyout ZfsvfsField.z_last_unmount_time zfsvfs.z_last_unmount_time
        useraddr))
  else
    (H.ENOTTY, w)

/-- The adapter `zfs_vnop_ioctl`: `ZFS_ENTER`, the command switch, `ZFS_EXIT`. -/
def zfs_vnop_ioctl (H : Host) (E : Engine) (ap : vnop_ioctl_args) (w : World) :
    Int × World :=
  match ZFS_ENTER H w with
  | (some e, w1) => (e, w1)
  | (none, w1) =>
    let r := zfs_vnop_ioctl_switch H E ap w1
    (r.1, ZFS_EXIT r.2)

/-! ### Operations with a fixed result

These adapters never read their argument bundle, so the bundle is of any type. -/

/-- The adapter `zfs_vnop_pagein`: `return (0);`. -/
def zfs_vnop_pagein {Args : Type} (_ap : Args) (w : World) : Int × World := (0, w)

/-- The adapter `zfs_vnop_pageout`: `return (zfs_putapage());`. -/
def zfs_vnop_pageout {Args : Type} (E : Engine) (_ap : Args) (w : World) : Int × World :=
  (E.zfs_putapage, w.emit Call.zfs_putapage)

/-- The adapter `zfs_vnop_mmap`: `return (0);`. -/
def zfs_vnop_mmap {Args : Type} (_ap : Args) (w : World) : Int × World := (0, w)

/-- The adapter `zfs_vnop_allocate`: `return (0);`. -/
def zfs_vnop_allocate {Args : Type} (_ap : Args) (w : World) : Int × World := (0, w)

/-- The adapter `zfs_vnop_whiteout`: `return (0);`. -/
def zfs_vnop_whiteout {Args : Type} (_ap : Args) (w : World) : Int × World := (0, w)

/-- The adapter `zfs_vnop_pathconf`: `return (0);`. -/
def zfs_vnop_pathconf {Args : Type} (_ap : Args) (w : World) : Int × World := (0, w)

/-- The adapter `zfs_vnop_blktooff`: `return (0);`. -/
def zfs_vnop_blktooff {Args : Type} (_ap : Args) (w : World) : Int × World := (0, w)

/-- The adapter `zfs_vnop_offtoblk`: `return (0);`. -/
def zfs_vnop_offtoblk {Args : Type} (_ap : Args) (w : World) : Int × World := (0, w)

/-- The adapter `zfs_vnop_blockmap`: `return (0);`. -/
def zfs_vnop_blockmap {Args : Type} (_ap : Args) (w : World) : Int × World := (0, w)

/-- The adapter `zfs_vnop_strategy`: `return (0);`. -/
def zfs_vnop_strategy {Args : Type} (_ap : Args) (w : World) : Int × World := (0, w)

/-- The adapter `zfs_vnop_readdirattr`: `return (0);`. -/
def zfs_vnop_readdirattr {Args : Type} (_ap : Args) (w : World) : Int × World := (0, w)

/-! ## Vnode operation templates -/

/-- The operation descriptors (`vnop_*_desc`) the templates mention. -/
inductive vnodeop_desc where
  | vnop_default_desc
  | vnop_lookup_desc
  | vnop_create_desc
  | vnop_whiteout_desc
  | vnop_mknod_desc
  | vnop_open_desc
  | vnop_close_desc
  | vnop_access_desc
  | vnop_getattr_desc
  | vnop_setattr_desc
  | vnop_read_desc
  | vnop_write_desc
  | vnop_ioctl_desc
  | vnop_select_desc
  | vnop_fsync_desc
  | vnop_remove_desc
  | vnop_link_desc
  | vnop_rename_desc
  | vnop_mkdir_desc
  | vnop_rmdir_desc
  | vnop_symlink_desc
  | vnop_readdir_desc
  | vnop_readlink_desc
  | vnop_inactive_desc
  | vnop_reclaim_desc
  | vnop_pathconf_desc
  | vnop_revoke_desc
  | vnop_getxattr_desc
  | vnop_setxattr_desc
  | vnop_removexattr_desc
  | vnop_listxattr_desc
  | vnop_readdirattr_desc
  | vnop_pagein_desc
  | vnop_pageout_desc
  | vnop_mmap_desc
  | vnop_blktooff_desc
  | vnop_offtoblk_desc
  | vnop_blockmap_desc
  | vnop_strategy_desc
  | vnop_allocate_desc
  | vnop_exchange_desc
  | vnop_getnamedstream_desc
  | vnop_makenamedstream_desc
  | vnop_removenamedstream_desc
  deriving DecidableEq, Repr

/-- The functions a template entry can name. -/
inductive VOPFUNC where
  | vn_default_error
  | zfs_isdir
  | zfs_inval
  | zfs_vnop_lookup
  | zfs_vnop_create
  | zfs_vnop_whiteout
  | zfs_vnop_mknod
  | zfs_vnop_open
  | zfs_vnop_close
  | zfs_vnop_access
  | zfs_vnop_getattr
  | zfs_vnop_setattr
  | zfs_vnop_read
  | zfs_vnop_write
  | zfs_vnop_ioctl
  | zfs_vnop_select
  | zfs_vnop_fsync
  | zfs_vnop_remove
  | zfs_vnop_link
  | zfs_vnop_rename
  | zfs_vnop_mkdir
  | zfs_vnop_rmdir
  | zfs_vnop_symlink
  | zfs_vnop_readdir
  | zfs_vnop_readlink
  | zfs_vnop_inactive
  | zfs_vnop_reclaim
  | zfs_vnop_pathconf
  | zfs_vnop_revoke
  | zfs_vnop_getxattr
  | zfs_vnop_setxattr
  | zfs_vnop_removexattr
  | zfs_vnop_listxattr
  | zfs_vnop_readdirattr
  | zfs_vnop_pagein
  | zfs_vnop_pageout
  | zfs_vnop_mmap
  | zfs_vnop_blktooff
  | zfs_vnop_offtoblk
  | zfs_vnop_blockmap
  | zfs_vnop_strategy
  | zfs_vnop_allocate
  | zfs_vnop_exchange
  | zfs_vnop_getnamedstream
  | zfs_vnop_makenamedstream
  | zfs_vnop_removenamedstream
  deriving DecidableEq, Repr

/-- One template entry, `{&desc, (VOPFUNC)impl}`. -/
structure vnodeopv_entry_desc where
  opve_op : vnodeop_desc
  opve_impl : VOPFUNC
  deriving DecidableEq, Repr

open vnodeop_desc in
/-- Directory vnode operations template (the closing `{NULL, NULL}` entry is the
end of the list). -/
def zfs_dvnodeops_template : List vnodeopv_entry_desc :=
  [ ⟨vnop_default_desc, .vn_default_error⟩,
    ⟨vnop_lookup_desc, .zfs_vnop_lookup⟩,
    ⟨vnop_create_desc, .zfs_vnop_create⟩,
    ⟨vnop_whiteout_desc, .zfs_vnop_whiteout⟩,
    ⟨vnop_mknod_desc, .zfs_vnop_mknod⟩,
    ⟨vnop_open_desc, .zfs_vnop_open⟩,
    ⟨vnop_close_desc, .zfs_vnop_close⟩,
    ⟨vnop_access_desc, .zfs_vnop_access⟩,
    ⟨vnop_getattr_desc, .zfs_vnop_getattr⟩,
    ⟨vnop_setattr_desc, .zfs_vnop_setattr⟩,
    ⟨vnop_read_desc, .zfs_isdir⟩,
    ⟨vnop_write_desc, .zfs_isdir⟩,
    ⟨vnop_ioctl_desc, .zfs_vnop_ioctl⟩,
    ⟨vnop_select_desc, .zfs_isdir⟩,
    ⟨vnop_fsync_desc, .zfs_vnop_fsync⟩,
    ⟨vnop_remove_desc, .zfs_vnop_remove⟩,
    ⟨vnop_link_desc, .zfs_vnop_link⟩,
    ⟨vnop_rename_desc, .zfs_vnop_rename⟩,
    ⟨vnop_mkdir_desc, .zfs_vnop_mkdir⟩,
    ⟨vnop_rmdir_desc, .zfs_vnop_rmdir⟩,
    ⟨vnop_symlink_desc, .zfs_vnop_symlink⟩,
    ⟨vnop_readdir_desc, .zfs_vnop_readdir⟩,
    ⟨vnop_inactive_desc, .zfs_vnop_inactive⟩,
    ⟨vnop_reclaim_desc, .zfs_vnop_reclaim⟩,
    ⟨vnop_pathconf_desc, .zfs_vnop_pathconf⟩,
    ⟨vnop_revoke_desc, .zfs_vnop_revoke⟩,
    ⟨vnop_getxattr_desc, .zfs_vnop_getxattr⟩,
    ⟨vnop_setxattr_desc, .zfs_vnop_setxattr⟩,
    ⟨vnop_removexattr_desc, .zfs_vnop_removexattr⟩,
    ⟨vnop_listxattr_desc, .zfs_vnop_listxattr⟩,
    ⟨vnop_readdirattr_desc, .zfs_vnop_readdirattr⟩ ]

open vnodeop_desc in
/-- Regular file vnode operations template; the three named-stream entries are
present when `HAVE_NAMED_STREAMS` is defined. -/
def zfs_fvnodeops_template (HAVE_NAMED_STREAMS : Bool) : List vnodeopv_entry_desc :=
  [ ⟨vnop_default_desc, .vn_default_error⟩,
    ⟨vnop_whiteout_desc, .zfs_vnop_whiteout⟩,
    ⟨vnop_open_desc, .zfs_vnop_open⟩,
    ⟨vnop_close_desc, .zfs_vnop_close⟩,
    ⟨vnop_access_desc, .zfs_vnop_access⟩,
    ⟨vnop_getattr_desc, .zfs_vnop_getattr⟩,
    ⟨vnop_setattr_desc, .zfs_vnop_setattr⟩,
    ⟨vnop_read_desc, .zfs_vnop_read⟩,
    ⟨vnop_write_desc, .zfs_vnop_write⟩,
    ⟨vnop_ioctl_desc, .zfs_vnop_ioctl⟩,
    ⟨vnop_select_desc, .zfs_vnop_select⟩,
    ⟨vnop_fsync_desc, .zfs_vnop_fsync⟩,
    ⟨vnop_inactive_desc, .zfs_vnop_inactive⟩,
    ⟨vnop_reclaim_desc, .zfs_vnop_reclaim⟩,
    ⟨vnop_pathconf_desc, .zfs_vnop_pathconf⟩,
    ⟨vnop_pagein_desc, .zfs_vnop_pagein⟩,
    ⟨vnop_pageout_desc, .zfs_vnop_pageout⟩,
    ⟨vnop_mmap_desc, .zfs_vnop_mmap⟩,
    ⟨vnop_blktooff_desc, .zfs_vnop_blktooff⟩,
    ⟨vnop_offtoblk_desc, .zfs_vnop_offtoblk⟩,
    ⟨vnop_blockmap_desc, .zfs_vnop_blockmap⟩,
    ⟨vnop_strategy_desc, .zfs_vnop_strategy⟩,
    ⟨vnop_allocate_desc, .zfs_vnop_allocate⟩,
    ⟨vnop_revoke_desc, .zfs_vnop_revoke⟩,
    ⟨vnop_exchange_desc, .zfs_vnop_exchange⟩,
    ⟨vnop_getxattr_desc, .zfs_vnop_getxattr⟩,
    ⟨vnop_setxattr_desc, .zfs_vnop_setxattr⟩,
    ⟨vnop_removexattr_desc, .zfs_vnop_removexattr⟩,
    ⟨vnop_listxattr_desc, .zfs_vnop_listxattr⟩ ] ++
  (if HAVE_NAMED_STREAMS then
    [ ⟨vnop_getnamedstream_desc, .zfs_vnop_getnamedstream⟩,
      ⟨vnop_makenamedstream_desc, .zfs_vnop_makenamedstream⟩,
      ⟨vnop_removenamedstream_desc, .zfs_vnop_removenamedstream⟩ ]
  else [])

open vnodeop_desc in
/-- Symbolic link vnode operations template. -/
def zfs_symvnodeops_template : List vnodeopv_entry_desc :=
  [ ⟨vnop_default_desc, .vn_default_error⟩,
    ⟨vnop_open_desc, .zfs_vnop_open⟩,
    ⟨vnop_close_desc, .zfs_vnop_close⟩,
    ⟨vnop_access_desc, .zfs_vnop_access⟩,
    ⟨vnop_getattr_desc, .zfs_vnop_getattr⟩,
    ⟨vnop_setattr_desc, .zfs_vnop_setattr⟩,
    ⟨vnop_ioctl_desc, .zfs_vnop_ioctl⟩,
    ⟨vnop_readlink_desc, .zfs_vnop_readlink⟩,
    ⟨vnop_inactive_desc, .zfs_vnop_inactive⟩,
    ⟨vnop_reclaim_desc, .zfs_vnop_reclaim⟩,
    ⟨vnop_pathconf_desc, .zfs_vnop_pathconf⟩,
    ⟨vnop_revoke_desc, .zfs_vnop_revoke⟩,
    ⟨vnop_getxattr_desc, .zfs_vnop_getxattr⟩,
    ⟨vnop_setxattr_desc, .zfs_vnop_setxattr⟩,
    ⟨vnop_removexattr_desc, .zfs_vnop_removexattr⟩,
    ⟨vnop_listxattr_desc, .zfs_vnop_listxattr⟩ ]

open vnodeop_desc in
/-- Extended attribute directory vnode operations template. -/
def zfs_xdvnodeops_template : List vnodeopv_entry_desc :=
  [ ⟨vnop_default_desc, .vn_default_error⟩,
    ⟨vnop_lookup_desc, .zfs_vnop_lookup⟩,
    ⟨vnop_create_desc, .zfs_vnop_create⟩,
    ⟨vnop_whiteout_desc, .zfs_vnop_whiteout⟩,
    ⟨vnop_mknod_desc, .zfs_inval⟩,
    ⟨vnop_open_desc, .zfs_vnop_open⟩,
    ⟨vnop_close_desc, .zfs_vnop_close⟩,
    ⟨vnop_access_desc, .zfs_vnop_access⟩,
    ⟨vnop_getattr_desc, .zfs_vnop_getattr⟩,
    ⟨vnop_setattr_desc, .zfs_vnop_setattr⟩,
    ⟨vnop_read_desc, .zfs_vnop_read⟩,
    ⟨vnop_write_desc, .zfs_vnop_write⟩,
    ⟨vnop_ioctl_desc, .zfs_vnop_ioctl⟩,
    ⟨vnop_select_desc, .zfs_vnop_select⟩,
    ⟨vnop_fsync_desc, .zfs_vnop_fsync⟩,
    ⟨vnop_remove_desc, .zfs_vnop_remove⟩,
    ⟨vnop_link_desc, .zfs_vnop_link⟩,
    ⟨vnop_rename_desc, .zfs_vnop_rename⟩,
    ⟨vnop_mkdir_desc, .zfs_inval⟩,
    ⟨vnop_rmdir_desc, .zfs_vnop_rmdir⟩,
    ⟨vnop_symlink_desc, .zfs_inval⟩,
    ⟨vnop_readdir_desc, .zfs_vnop_readdir⟩,
    ⟨vnop_inactive_desc, .zfs_vnop_inactive⟩,
    ⟨vnop_reclaim_desc, .zfs_vnop_reclaim⟩,
    ⟨vnop_pathconf_desc, .zfs_vnop_pathconf⟩ ]

open vnodeop_desc in
/-- Error vnode operations template. -/
def zfs_evnodeops_template : List vnodeopv_entry_desc :=
  [ ⟨vnop_default_desc, .vn_default_error⟩,
    ⟨vnop_inactive_desc, .zfs_vnop_inactive⟩,
    ⟨vnop_reclaim_desc, .zfs_vnop_reclaim⟩,
    ⟨vnop_pathconf_desc, .zfs_vnop_pathconf⟩ ]

/-- The five vnode classes, one per template. -/
inductive VnodeClass where
  | directory
  | regular_file
  | symbolic_link
  | xattr_directory
  | error_node
  deriving DecidableEq, Repr

/-- The template of a vnode class. -/
def VnodeClass.template (HAVE_NAMED_STREAMS : Bool) : VnodeClass → List vnodeopv_entry_desc
  | .directory => zfs_dvnodeops_template
  | .regular_file => zfs_fvnodeops_template HAVE_NAMED_STREAMS
  | .symbolic_link => zfs_symvnodeops_template
  | .xattr_directory => zfs_xdvnodeops_template
  | .error_node => zfs_evnodeops_template

/-- Modelled from the spec: how the host resolves an operation identifier against
a class template (the host's vector construction is not in the file).  "Each
table is a fixed mapping operation-id → adapter function"; "any identifier not
present in a class's table resolves to a shared default stub", which is the
function the template registers under `vnop_default_desc`. -/
def vop_resolve (t : List vnodeopv_entry_desc) (op : vnodeop_desc) : Option VOPFUNC :=
  match t.find? (fun e => decide (e.opve_op = op)) with
  | some e => some e.opve_impl
  | none =>
    (t.find? (fun e => decide (e.opve_op = vnodeop_desc.vnop_default_desc))).map
      (fun e => e.opve_impl)

/-- Modelled from the spec: the value of the host's default stub
`vn_default_error`, which is not in the file: "a fixed operation not supported
status without side effects". -/
def vn_default_error (H : Host) : Int := H.ENOTSUP

/-- The rows of the spec's support matrix (section 4.1). -/
inductive OpFamily where
  | namespace_ops
  | read_write_select
  | open_attr_sync
  | readdir
  | readlink
  | paging_block
  | lifecycle
  | xattr
  deriving DecidableEq, Repr

open vnodeop_desc in
/-- The row of the spec's support matrix an operation identifier belongs to, if
the matrix names it:
"lookup/create/mkdir/rmdir/remove/rename/link/symlink", "read/write/select",
"open/close/access/getattr/setattr/ioctl/fsync", "readdir", "readlink",
"paging/mmap/blockmap/strategy/allocate/exchange", "inactive/reclaim/pathconf",
"extended-attribute get/set/remove/list". -/
def spec_family : vnodeop_desc → Option OpFamily
  | vnop_lookup_desc | vnop_create_desc | vnop_mkdir_desc | vnop_rmdir_desc
  | vnop_remove_desc | vnop_rename_desc | vnop_link_desc | vnop_symlink_desc =>
    some .namespace_ops
  | vnop_read_desc | vnop_write_desc | vnop_select_desc => some .read_write_select
  | vnop_open_desc | vnop_close_desc | vnop_access_desc | vnop_getattr_desc
  | vnop_setattr_desc | vnop_ioctl_desc | vnop_fsync_desc => some .open_attr_sync
  | vnop_readdir_desc => some .readdir
  | vnop_readlink_desc => some .readlink
  | vnop_pagein_desc | vnop_pageout_desc | vnop_mmap_desc | vnop_blktooff_desc
  | vnop_offtoblk_desc | vnop_blockmap_desc | vnop_strategy_desc | vnop_allocate_desc
  | vnop_exchange_desc => some .paging_block
  | vnop_inactive_desc | vnop_reclaim_desc | vnop_pathconf_desc => some .lifecycle
  | vnop_getxattr_desc | vnop_setxattr_desc | vnop_removexattr_desc
  | vnop_listxattr_desc => some .xattr
  | _ => none

/-- The cells of the spec's support matrix: `true` where the matrix has an entry
for the class ("yes", "partial", a handler that rejects), `false` where it says
"no". -/
def spec_row_supported : OpFamily → VnodeClass → Bool
  | .namespace_ops, .directory => true
  | .namespace_ops, .xattr_directory => true
  | .namespace_ops, _ => false
  | .read_write_select, .directory => true
  | .read_write_select, .regular_file => true
  | .read_write_select, .xattr_directory => true
  | .read_write_select, _ => false
  | .open_attr_sync, .error_node => false
  | .open_attr_sync, _ => true
  | .readdir, .directory => true
  | .readdir, .xattr_directory => true
  | .readdir, _ => false
  | .readlink, .symbolic_link => true
  | .readlink, _ => false
  | .paging_block, .regular_file => true
  | .paging_block, _ => false
  | .lifecycle, _ => true
  | .xattr, .directory => true
  | .xattr, .regular_file => true
  | .xattr, .symbolic_link => true
  | .xattr, _ => false

/-- Whether the spec's support matrix marks an operation identifier as supported
for a vnode class. -/
def spec_supported (c : VnodeClass) (op : vnodeop_desc) : Bool :=
  match spec_family op with
  | some f => spec_row_supported f c
  | none => false

/-- The entry a class template holds for an operation identifier, if it holds
one. -/
def template_entry (t : List vnodeopv_entry_desc) (op : vnodeop_desc) :
    Option vnodeopv_entry_desc :=
  t.find? (fun e => decide (e.opve_op = op))

/-- Whether the spec's support matrix marks an operation identifier "no" for a
vnode class: the identifier belongs to a row of the matrix and the cell of the
class says "no". -/
def spec_marked_no (c : VnodeClass) (op : vnodeop_desc) : Bool :=
  match spec_family op with
  | some f => !spec_row_supported f c
  | none => false

open vnodeop_desc in
/-- The operation identifiers other than inactive, reclaim and pathconf;
`vnop_default_desc`, the slot that names the default stub and stands for no
operation, is not among them. -/
def not_lifecycle_op : vnodeop_desc → Bool
  | vnop_inactive_desc | vnop_reclaim_desc | vnop_pathconf_desc => false
  | vnop_default_desc => false
  | _ => true

/-! ## Concrete inputs -/

/-- A host with the OS X header values; a vnode `n` lives on mount `n / 100`
and the credential of context `c` is `c + 1000`. -/
def osx : Host where
  EXDEV := 18
  ENAMETOOLONG := 63
  ENOTTY := 25
  ENOTSUP := 45
  state_error := 5
  F_FULLFSYNC := 51
  SPOTLIGHT_GET_MOUNT_TIME := 0x10002
  SPOTLIGHT_GET_UNMOUNT_TIME := 0x10003
  VA_EXCLUSIVE := 0x20000
  ZAP_MAXNAMELEN := 256
  vfs_context_ucred := fun c => c + 1000
  vnode_mount := fun vp => vp / 100
  zfs_ioflags := fun f => f

/-- An engine every entry point of which returns the status `e` and writes
nothing. -/
def engineConst (e : Int) : Engine where
  zfs_vnop_ioctl_fsync := fun _ _ _ => e
  copyout := fun _ _ _ => e
  zfs_read := fun _ _ _ _ _ => e
  zfs_create := fun _ _ _ _ _ _ _ _ _ _ => e
  zfs_readdir := fun _ _ _ _ _ _ m => (e, m)
  zfs_rename := fun _ _ _ _ _ _ => e
  zfs_link := fun _ _ _ _ => e
  zfs_putapage := e
  zfs_open := fun _ _ _ _ => e
  zfs_close := fun _ _ _ _ _ _ => e
  zfs_write := fun _ _ _ _ _ => e
  zfs_lookup := fun _ _ _ _ _ _ _ _ _ _ => e
  zfs_remove := fun _ _ _ _ _ => e
  zfs_mkdir := fun _ _ _ _ _ _ _ _ => e
  zfs_rmdir := fun _ _ _ _ _ _ => e
  zfs_getattr := fun _ _ _ _ _ => e
  zfs_setattr := fun _ _ _ _ _ => e
  zfs_symlink := fun _ _ _ _ _ => e
  zfs_readlink := fun _ _ _ => e

/-- An ACTIVE instance with no call in flight. -/
def activeInstance : zfsvfs_t :=
  { z_mount_time := 1111, z_last_unmount_time := 999, z_op_cnt := 0, z_unmounted := false }

/-- An instance in the TEARING-DOWN state. -/
def tearingDownInstance : zfsvfs_t :=
  { z_mount_time := 1111, z_last_unmount_time := 999, z_op_cnt := 0, z_unmounted := true }

/-- A world on an ACTIVE instance, no call made yet, in which the integer at
address 100 holds 7 and every other slot holds 0. -/
def world0 : World :=
  { zfsvfs := activeInstance, mem := fun p => if p = 100 then 7 else 0, calls := [] }

/-- The same world on a TEARING-DOWN instance. -/
def worldTearingDown : World :=
  { world0 with zfsvfs := tearingDownInstance }

/-- The component name "foo". -/
def cnFoo : componentname := { cn_nameptr := "foo", cn_namelen := 3, cn_flags := 0 }

/-- A component name whose length is `ZAP_MAXNAMELEN` on OS X. -/
def cnLong : componentname :=
  { cn_nameptr := "a name of 256 bytes", cn_namelen := 256, cn_flags := 0 }

/-- A rename of "foo" from directory 101 to "foo" in directory 102. -/
def renameArgs : vnop_rename_args :=
  { a_fdvp := 101, a_fvp := 111, a_fcnp := cnFoo, a_tdvp := 102, a_tvp := 0,
    a_tcnp := cnFoo, a_context := 1 }

/-- A directory listing whose caller keeps its entry count at address 100 and
its end-of-sequence flag at address 200. -/
def readdirArgs : vnop_readdir_args :=
  { a_vp := 101, a_uio := 2, a_flags := 0, a_eofflag := 200, a_numdirent := 100,
    a_context := 1 }

/-- A link of vnode 111 (mount 1) into directory 201 (mount 2). -/
def linkArgsCrossMount : vnop_link_args :=
  { a_vp := 111, a_tdvp := 201, a_cnp := cnFoo, a_context := 1 }

/-- A link of vnode 111 into directory 101 of the same mount, under "foo". -/
def linkArgs : vnop_link_args :=
  { a_vp := 111, a_tdvp := 101, a_cnp := cnFoo, a_context := 1 }

/-- The same link under a name of `ZAP_MAXNAMELEN` bytes. -/
def linkArgsLong : vnop_link_args :=
  { a_vp := 111, a_tdvp := 101, a_cnp := cnLong, a_context := 1 }

/-- A create of "foo" in directory 101 with exclusive creation requested. -/
def createArgs : vnop_create_args :=
  { a_dvp := 101, a_vpp := 300, a_cnp := cnFoo,
    a_vap := { va_vaflags := 0x20000, va_mode := 0o644 }, a_context := 1 }

/-- A read of vnode 111. -/
def readArgs : vnop_read_args :=
  { a_vp := 111, a_uio := 2, a_ioflag := 0, a_context := 1 }

/-- A device-control call with a command code the switch does not name. -/
def ioctlArgsUnknown : vnop_ioctl_args :=
  { a_vp := 111, a_command := 7, a_data := 400, a_fflag := 0, a_context := 1 }

/-! ## Lemmas -/

/-- A flag word has a non-zero intersection with a single-bit mask exactly when
it has that bit. -/
theorem land_two_pow_ne_zero_iff (n k : Nat) : n &&& 2 ^ k ≠ 0 ↔ n.testBit k = true := by
  constructor
  · intro h
    by_contra hb
    apply h
    apply Nat.eq_of_testBit_eq
    intro i
    rw [Nat.testBit_and, Nat.testBit_two_pow, Nat.zero_testBit]
    by_cases hki : k = i
    · subst hki
      simp [Bool.not_eq_true _ ▸ hb]
    · simp [hki]
  · intro hb h0
    have h1 : (n &&& 2 ^ k).testBit k = true := by
      rw [Nat.testBit_and, Nat.testBit_two_pow_self, hb]
      rfl
    rw [h0, Nat.zero_testBit] at h1
    exact Bool.noConfusion h1

/-- With a single-bit `VA_EXCLUSIVE`, the create mode is decided by that bit. -/
theorem create_excl_of_two_pow (H : Host) (vap : vattr_t) (k : Nat)
    (hk : H.VA_EXCLUSIVE = 2 ^ k) :
    create_excl H vap =
      if vap.va_vaflags.testBit k = true then vcexcl_t.EXCL else vcexcl_t.NONEXCL := by
  unfold create_excl
  rw [hk]
  by_cases hb : vap.va_vaflags.testBit k = true
  · rw [if_pos ((land_two_pow_ne_zero_iff _ _).mpr hb), if_pos hb]
  · rw [if_neg (fun h => hb ((land_two_pow_ne_zero_iff _ _).mp h)), if_neg hb]

/-! ## Rename -/

/-- C1 (counterexample): `zfs_rename` fails with status 1, and `cache_purge` is
still invoked, once, on the destination parent. -/
theorem zfs_vnop_rename_failed_purges :
    (zfs_vnop_rename osx (engineConst 1) renameArgs world0).1 = 1 ∧
      (zfs_vnop_rename osx (engineConst 1) renameArgs world0).2.calls.countP
        Call.isCachePurge = 1 ∧
      Call.cache_purge 102 ∈
        (zfs_vnop_rename osx (engineConst 1) renameArgs world0).2.calls := by
  refine ⟨rfl, rfl, ?_⟩
  simp [zfs_vnop_rename, World.emit, world0, renameArgs]

/-- C1 (amended): for every call of `zfs_vnop_rename` and every status
`zfs_rename` returns, zero or not, the adapter returns that status and makes
exactly two external calls: `zfs_rename`, then one `cache_purge` on the
destination parent `a_tdvp`. -/
theorem zfs_vnop_rename_purges_once (H : Host) (E : Engine) (ap : vnop_rename_args)
    (w : World) :
    (zfs_vnop_rename H E ap w).1 =
        E.zfs_rename ap.a_fdvp ap.a_fcnp ap.a_tdvp ap.a_tcnp
          (H.vfs_context_ucred ap.a_context) ap.a_context ∧
      (zfs_vnop_rename H E ap w).2.calls =
        w.calls ++
          [Call.zfs_rename ap.a_fdvp ap.a_fcnp ap.a_tdvp ap.a_tcnp
              (H.vfs_context_ucred ap.a_context) ap.a_context,
            Call.cache_purge ap.a_tdvp] ∧
      ((zfs_vnop_rename H E ap w).2.calls.drop w.calls.length).countP
        Call.isCachePurge = 1 := by
  refine ⟨rfl, ?_, ?_⟩
  · simp [zfs_vnop_rename, World.emit, DECLARE_CRED, DECLARE_CONTEXT]
  · simp [zfs_vnop_rename, World.emit, DECLARE_CRED, DECLARE_CONTEXT, Call.isCachePurge]

/-! ## Readdir -/

/-- C2 (the code at the failing input): the caller keeps its entry count, 7, at
address 100 and the engine fails with status 5 without writing.  The adapter
returns 5; the pointer it hands to `zfs_readdir` is `NULL`, not address 100;
the caller's slot still holds 7 on return, and the bundle's `a_numdirent`
field is `NULL`. -/
theorem zfs_vnop_readdir_count_not_zeroed :
    (zfs_vnop_readdir osx (engineConst 5) readdirArgs world0).1 = 5 ∧
      (zfs_vnop_readdir osx (engineConst 5) readdirArgs world0).2.2.calls =
        [Call.zfs_readdir 101 2 1001 200 0 0] ∧
      (zfs_vnop_readdir osx (engineConst 5) readdirArgs world0).2.2.mem 100 = 7 ∧
      (zfs_vnop_readdir osx (engineConst 5) readdirArgs world0).2.1.a_numdirent = 0 := by
  refine ⟨rfl, rfl, rfl, rfl⟩

/-! ## Link -/

/-- C3: when the source vnode and the destination directory are on different
mounts, `zfs_vnop_link` returns `EXDEV` and makes no external call (so
`zfs_link` is not invoked), whatever the component name is. -/
theorem zfs_vnop_link_cross_mount (H : Host) (E : Engine) (ap : vnop_link_args)
    (w : World) (hmount : H.vnode_mount ap.a_vp ≠ H.vnode_mount ap.a_tdvp) :
    (zfs_vnop_link H E ap w).1 = H.EXDEV ∧
      (zfs_vnop_link H E ap w).2.calls = w.calls ∧
      ((zfs_vnop_link H E ap w).2.calls.drop w.calls.length).countP Call.isLink = 0 := by
  simp [zfs_vnop_link, hmount]

/-- C3 (witness): vnode 111 on mount 1 linked into directory 201 on mount 2. -/
theorem zfs_vnop_link_cross_mount_witness :
    osx.vnode_mount linkArgsCrossMount.a_vp ≠ osx.vnode_mount linkArgsCrossMount.a_tdvp ∧
      (zfs_vnop_link osx (engineConst 0) linkArgsCrossMount world0).1 = 18 ∧
      (zfs_vnop_link osx (engineConst 0) linkArgsCrossMount world0).2.calls = [] :=
  ⟨by decide,
    (zfs_vnop_link_cross_mount osx (engineConst 0) linkArgsCrossMount world0
      (by decide)).1,
    (zfs_vnop_link_cross_mount osx (engineConst 0) linkArgsCrossMount world0
      (by decide)).2.1⟩

/-- C4: when both handles are on the same mount, a component name with
`cn_namelen >= ZAP_MAXNAMELEN` makes `zfs_vnop_link` return `ENAMETOOLONG`
without any external call, and a shorter name makes it invoke `zfs_link`
exactly once, with `(a_tdvp, a_vp, a_cnp, cr)`, and return its status. -/
theorem zfs_vnop_link_name_length (H : Host) (E : Engine) (ap : vnop_link_args)
    (w : World) (hmount : H.vnode_mount ap.a_vp = H.vnode_mount ap.a_tdvp) :
    (ap.a_cnp.cn_namelen ≥ H.ZAP_MAXNAMELEN →
        (zfs_vnop_link H E ap w).1 = H.ENAMETOOLONG ∧
          (zfs_vnop_link H E ap w).2.calls = w.calls) ∧
      (ap.a_cnp.cn_namelen < H.ZAP_MAXNAMELEN →
        (zfs_vnop_link H E ap w).1 =
            E.zfs_link ap.a_tdvp ap.a_vp ap.a_cnp (H.vfs_context_ucred ap.a_context) ∧
          (zfs_vnop_link H E ap w).2.calls =
            w.calls ++
              [Call.zfs_link ap.a_tdvp ap.a_vp ap.a_cnp
                (H.vfs_context_ucred ap.a_context)]) := by
  constructor
  · intro hlen
    simp [zfs_vnop_link, hmount, hlen]
  · intro hlen
    have hnot : ¬ ap.a_cnp.cn_namelen ≥ H.ZAP_MAXNAMELEN := not_le.mpr hlen
    simp [zfs_vnop_link, hmount, hnot, World.emit, DECLARE_CRED]

/-- C4 (witness): on one mount, a 256-byte name is refused with status 63 and no
call, and "foo" reaches `zfs_link` once. -/
theorem zfs_vnop_link_name_length_witness :
    (zfs_vnop_link osx (engineConst 0) linkArgsLong world0).1 = 63 ∧
      (zfs_vnop_link osx (engineConst 0) linkArgsLong world0).2.calls = [] ∧
      (zfs_vnop_link osx (engineConst 0) linkArgs world0).2.calls =
        [Call.zfs_link 101 111 cnFoo 1001] :=
  ⟨((zfs_vnop_link_name_length osx (engineConst 0) linkArgsLong world0 (by decide)).1
      (by decide)).1,
    ((zfs_vnop_link_name_length osx (engineConst 0) linkArgsLong world0 (by decide)).1
      (by decide)).2,
    ((zfs_vnop_link_name_length osx (engineConst 0) linkArgs world0 (by decide)).2
      (by decide)).2⟩

/-! ## Create -/

/-- C5: with `VA_EXCLUSIVE` the single bit `2 ^ k`, `zfs_vnop_create` invokes
`zfs_create` once, and the mode it passes is `EXCL` when bit `k` of
`va_vaflags` is set and `NONEXCL` when it is clear: no other bit of
`va_vaflags` enters the mode. -/
theorem zfs_vnop_create_excl (H : Host) (E : Engine) (mode : Int)
    (ap : vnop_create_args) (w : World) (k : Nat) (hk : H.VA_EXCLUSIVE = 2 ^ k) :
    (zfs_vnop_create H E mode ap w).2.calls =
      w.calls ++
        [Call.zfs_create ap.a_dvp ap.a_cnp ap.a_vap
          (if ap.a_vap.va_vaflags.testBit k = true then vcexcl_t.EXCL
            else vcexcl_t.NONEXCL)
          mode ap.a_vpp (H.vfs_context_ucred ap.a_context) 0 ap.a_context NULL] := by
  simp only [zfs_vnop_create, World.emit, DECLARE_CRED]
  rw [create_excl_of_two_pow H ap.a_vap k hk]

/-- C5 (witness): on OS X (`VA_EXCLUSIVE = 2 ^ 17`) a create with the exclusive
flag set reaches the engine with `EXCL`. -/
theorem zfs_vnop_create_excl_witness :
    osx.VA_EXCLUSIVE = 2 ^ 17 ∧
      (zfs_vnop_create osx (engineConst 0) 0o644 createArgs world0).2.calls =
        [Call.zfs_create 101 cnFoo { va_vaflags := 0x20000, va_mode := 0o644 }
          vcexcl_t.EXCL 0o644 300 1001 0 1 0] :=
  ⟨by decide,
    (zfs_vnop_create_excl osx (engineConst 0) 0o644 createArgs world0 17 (by decide)).trans
      (by decide)⟩

/-! ## Device control -/

/-- The guard acquisition leaves the instance's timestamps and teardown flag as
they were. -/
theorem ZFS_ENTER_active (H : Host) (w : World) (hactive : w.zfsvfs.z_unmounted = false) :
    ZFS_ENTER H w =
      (none,
        { w with
          zfsvfs := { w.zfsvfs with z_op_cnt := w.zfsvfs.z_op_cnt + 1 }
          calls := w.calls ++ [Call.ZFS_ENTER] }) := by
  simp [ZFS_ENTER, hactive]

/-- On an instance that is tearing down the guard acquires, releases and reports
the state error. -/
theorem ZFS_ENTER_tearing_down (H : Host) (w : World)
    (hdown : w.zfsvfs.z_unmounted = true) :
    ZFS_ENTER H w =
      (some H.state_error,
        { w with
          zfsvfs := { w.zfsvfs with z_op_cnt := w.zfsvfs.z_op_cnt + 1 - 1 }
          calls := w.calls ++ [Call.ZFS_ENTER] ++ [Call.ZFS_EXIT] }) := by
  simp [ZFS_ENTER, ZFS_EXIT, hdown]

/-- The command switch makes at most one external call, never a guard event, and
does not touch the instance. -/
theorem zfs_vnop_ioctl_switch_frame (H : Host) (E : Engine) (ap : vnop_ioctl_args)
    (w : World) :
    ∃ new : List Call,
      (zfs_vnop_ioctl_switch H E ap w).2.calls = w.calls ++ new ∧
        new.countP Call.isEnter = 0 ∧ new.countP Call.isExit = 0 ∧
        (zfs_vnop_ioctl_switch H E ap w).2.zfsvfs = w.zfsvfs := by
  unfold zfs_vnop_ioctl_switch
  by_cases h1 : ap.a_command = H.F_FULLFSYNC
  · rw [if_pos h1]
    exact ⟨[Call.zfs_vnop_ioctl_fsync ap.a_vp ap.a_context], by
      simp [World.emit, Call.isEnter, Call.isExit]⟩
  · rw [if_neg h1]
    by_cases h2 : ap.a_command = H.SPOTLIGHT_GET_MOUNT_TIME
    · rw [if_pos h2]
      exact ⟨[Call.copyout ZfsvfsField.z_mount_time w.zfsvfs.z_mount_time ap.a_data], by
        simp [World.emit, Call.isEnter, Call.isExit]⟩
    · rw [if_neg h2]
      by_cases h3 : ap.a_command = H.SPOTLIGHT_GET_UNMOUNT_TIME
      · rw [if_pos h3]
        exact ⟨[Call.copyout ZfsvfsField.z_last_unmount_time
            w.zfsvfs.z_last_unmount_time ap.a_data], by
          simp [World.emit, Call.isEnter, Call.isExit]⟩
      · rw [if_neg h3]
        exact ⟨[], by simp⟩

/-- C6: for every call of `zfs_vnop_ioctl` (every command code, every handler
result, ACTIVE or TEARING-DOWN instance) the calls it adds hold exactly one
guard acquisition and exactly one guard release, so the two counts are equal,
and the busy counter after the call equals the busy counter before it. -/
theorem zfs_vnop_ioctl_guard_balanced (H : Host) (E : Engine) (ap : vnop_ioctl_args)
    (w : World) :
    ∃ new : List Call,
      (zfs_vnop_ioctl H E ap w).2.calls = w.calls ++ new ∧
        new.countP Call.isEnter = new.countP Call.isExit ∧
        new.countP Call.isEnter = 1 ∧
        (zfs_vnop_ioctl H E ap w).2.zfsvfs.z_op_cnt = w.zfsvfs.z_op_cnt := by
  cases hstate : w.zfsvfs.z_unmounted with
  | true =>
    refine ⟨[Call.ZFS_ENTER, Call.ZFS_EXIT], ?_⟩
    simp [zfs_vnop_ioctl, ZFS_ENTER_tearing_down H w hstate, Call.isEnter, Call.isExit]
  | false =>
    obtain ⟨new, hcalls, henter, hexit, hfs⟩ :=
      zfs_vnop_ioctl_switch_frame H E ap
        { w with
          zfsvfs := { w.zfsvfs with z_op_cnt := w.zfsvfs.z_op_cnt + 1 }
          calls := w.calls ++ [Call.ZFS_ENTER] }
    refine ⟨[Call.ZFS_ENTER] ++ new ++ [Call.ZFS_EXIT], ?_⟩
    simp only [zfs_vnop_ioctl, ZFS_ENTER_active H w hstate, ZFS_EXIT, hcalls, hfs]
    simp [List.countP_append, henter, hexit, Call.isEnter, Call.isExit]

/-- C8 (counterexample): on an ACTIVE instance of the OS X host, the unrecognized
command 7 gets status 25 (`ENOTTY`), which is not the status 45 (`ENOTSUP`) of
the default dispatch stub. -/
theorem zfs_vnop_ioctl_unknown_not_enotsup :
    (zfs_vnop_ioctl osx (engineConst 0) ioctlArgsUnknown world0).1 = 25 ∧
      vn_default_error osx = 45 ∧
      (zfs_vnop_ioctl osx (engineConst 0) ioctlArgsUnknown world0).1 ≠
        vn_default_error osx := by
  refine ⟨by decide, rfl, by decide⟩

/-- C8 (amended): on an ACTIVE instance, a command code that is none of
`F_FULLFSYNC`, `SPOTLIGHT_GET_MOUNT_TIME`, `SPOTLIGHT_GET_UNMOUNT_TIME` gets the
status `ENOTTY`; the only calls made are the guard acquisition and its release
(neither `zfs_vnop_ioctl_fsync` nor `copyout`), and the instance state after the
call equals the state before it. -/
theorem zfs_vnop_ioctl_unknown_command (H : Host) (E : Engine) (ap : vnop_ioctl_args)
    (w : World) (hactive : w.zfsvfs.z_unmounted = false)
    (hsync : ap.a_command ≠ H.F_FULLFSYNC)
    (hmount : ap.a_command ≠ H.SPOTLIGHT_GET_MOUNT_TIME)
    (hunmount : ap.a_command ≠ H.SPOTLIGHT_GET_UNMOUNT_TIME) :
    (zfs_vnop_ioctl H E ap w).1 = H.ENOTTY ∧
      (zfs_vnop_ioctl H E ap w).2.calls = w.calls ++ [Call.ZFS_ENTER, Call.ZFS_EXIT] ∧
      ((zfs_vnop_ioctl H E ap w).2.calls.drop w.calls.length).countP
        Call.isIoctlHandler = 0 ∧
      (zfs_vnop_ioctl H E ap w).2.zfsvfs = w.zfsvfs := by
  simp only [zfs_vnop_ioctl, ZFS_ENTER_active H w hactive, zfs_vnop_ioctl_switch,
    if_neg hsync, if_neg hmount, if_neg hunmount, ZFS_EXIT]
  refine ⟨trivial, by simp, by simp [Call.isIoctlHandler], ?_⟩
  cases hz : w.zfsvfs
  simp

/-- C8 (witness): command 7 on the ACTIVE instance of `world0`. -/
theorem zfs_vnop_ioctl_unknown_command_witness :
    (zfs_vnop_ioctl osx (engineConst 0) ioctlArgsUnknown world0).1 = 25 ∧
      (zfs_vnop_ioctl osx (engineConst 0) ioctlArgsUnknown world0).2.calls =
        [Call.ZFS_ENTER, Call.ZFS_EXIT] ∧
      (zfs_vnop_ioctl osx (engineConst 0) ioctlArgsUnknown world0).2.zfsvfs =
        activeInstance :=
  ⟨(zfs_vnop_ioctl_unknown_command osx (engineConst 0) ioctlArgsUnknown world0 rfl
      (by decide) (by decide) (by decide)).1,
    (zfs_vnop_ioctl_unknown_command osx (engineConst 0) ioctlArgsUnknown world0 rfl
      (by decide) (by decide) (by decide)).2.1,
    (zfs_vnop_ioctl_unknown_command osx (engineConst 0) ioctlArgsUnknown world0 rfl
      (by decide) (by decide) (by decide)).2.2.2⟩

/-! ## Read -/

/-- C7 (counterexample): a read on an instance that is TEARING-DOWN, with an
engine that answers 0: `zfs_read` is invoked and the adapter returns 0, not a
state error. -/
theorem zfs_vnop_read_tearing_down_reaches_engine :
    worldTearingDown.zfsvfs.z_unmounted = true ∧
      (zfs_vnop_read osx (engineConst 0) readArgs worldTearingDown).1 = 0 ∧
      (zfs_vnop_read osx (engineConst 0) readArgs worldTearingDown).2.calls =
        [Call.zfs_read 111 2 0 1001 1] := by
  refine ⟨rfl, rfl, rfl⟩

/-- C7 (amended): `zfs_vnop_read` has no entry guard of its own: in every
instance state, TEARING-DOWN included, it invokes `zfs_read` exactly once with
`(a_vp, a_uio, zfs_ioflags(a_ioflag), cr, ct)`, returns the status the engine
returns, and leaves the instance state as it was. -/
theorem zfs_vnop_read_delegates (H : Host) (E : Engine) (ap : vnop_read_args)
    (w : World) :
    (zfs_vnop_read H E ap w).1 =
        E.zfs_read ap.a_vp ap.a_uio (H.zfs_ioflags ap.a_ioflag)
          (H.vfs_context_ucred ap.a_context) ap.a_context ∧
      (zfs_vnop_read H E ap w).2.calls =
        w.calls ++
          [Call.zfs_read ap.a_vp ap.a_uio (H.zfs_ioflags ap.a_ioflag)
            (H.vfs_context_ucred ap.a_context) ap.a_context] ∧
      (zfs_vnop_read H E ap w).2.zfsvfs = w.zfsvfs :=
  ⟨rfl, rfl, rfl⟩

/-! ## Operations with a fixed result -/

/-- C9 (counterexample): with an engine whose `zfs_putapage` answers 5, the
page-out adapter invokes `zfs_putapage` and returns 5, not 0. -/
theorem zfs_vnop_pageout_calls_engine :
    (zfs_vnop_pageout (engineConst 5) () world0).1 = 5 ∧
      (zfs_vnop_pageout (engineConst 5) () world0).2.calls = [Call.zfs_putapage] ∧
      Call.isEngine Call.zfs_putapage = true := by
  refine ⟨rfl, rfl, rfl⟩

/-- C9 (amended): for every argument bundle, `zfs_vnop_allocate`,
`zfs_vnop_whiteout`, `zfs_vnop_pathconf`, `zfs_vnop_mmap`, `zfs_vnop_pagein`,
`zfs_vnop_blktooff`, `zfs_vnop_offtoblk`, `zfs_vnop_blockmap`,
`zfs_vnop_strategy` and `zfs_vnop_readdirattr` return 0 and leave the world
(instance state, memory, calls made) as it was; `zfs_vnop_pageout` invokes
`zfs_putapage` once, returns its status, and leaves the instance state as it
was. -/
theorem stub_policy_fixed_result (E : Engine) (Args : Type) (ap : Args) (w : World) :
    zfs_vnop_allocate ap w = (0, w) ∧
      zfs_vnop_whiteout ap w = (0, w) ∧
      zfs_vnop_pathconf ap w = (0, w) ∧
      zfs_vnop_mmap ap w = (0, w) ∧
      zfs_vnop_pagein ap w = (0, w) ∧
      zfs_vnop_blktooff ap w = (0, w) ∧
      zfs_vnop_offtoblk ap w = (0, w) ∧
      zfs_vnop_blockmap ap w = (0, w) ∧
      zfs_vnop_strategy ap w = (0, w) ∧
      zfs_vnop_readdirattr ap w = (0, w) ∧
      (zfs_vnop_pageout E ap w).1 = E.zfs_putapage ∧
      (zfs_vnop_pageout E ap w).2.calls = w.calls ++ [Call.zfs_putapage] ∧
      (zfs_vnop_pageout E ap w).2.zfsvfs = w.zfsvfs :=
  ⟨rfl, rfl, rfl, rfl, rfl, rfl, rfl, rfl, rfl, rfl, rfl, rfl, rfl⟩

/-! ## Dispatch -/

/-- C10 (counterexample): the spec's matrix marks fsync as supported on symbolic
links, and the symbolic-link template has no fsync entry, so the identifier
resolves to `vn_default_error`. -/
theorem symlink_fsync_resolves_to_default :
    spec_supported VnodeClass.symbolic_link vnodeop_desc.vnop_fsync_desc = true ∧
      vop_resolve (VnodeClass.symbolic_link.template false) vnodeop_desc.vnop_fsync_desc =
        some VOPFUNC.vn_default_error ∧
      vop_resolve (VnodeClass.symbolic_link.template true) vnodeop_desc.vnop_fsync_desc =
        some VOPFUNC.vn_default_error := by
  refine ⟨by decide, by decide, by decide⟩

/-- C10 (amended): for every vnode class and every operation identifier the
spec's support matrix marks as supported for that class, other than fsync on
the symbolic-link class, the identifier resolves in the class's template to an
entry that is not `vn_default_error`. -/
theorem supported_resolves_to_entry (HAVE_NAMED_STREAMS : Bool) (c : VnodeClass)
    (op : vnodeop_desc) (hsup : spec_supported c op = true)
    (hne : ¬ (c = VnodeClass.symbolic_link ∧ op = vnodeop_desc.vnop_fsync_desc)) :
    ∃ f : VOPFUNC,
      vop_resolve (c.template HAVE_NAMED_STREAMS) op = some f ∧
        f ≠ VOPFUNC.vn_default_error := by
  cases HAVE_NAMED_STREAMS <;> cases c <;> cases op <;>
    first
    | exact absurd hsup (by decide)
    | exact ⟨_, rfl, by decide⟩
    | exact absurd (And.intro rfl rfl) hne

/-- C10 (witness): open on the directory class resolves to `zfs_vnop_open`. -/
theorem supported_resolves_to_entry_witness :
    spec_supported VnodeClass.directory vnodeop_desc.vnop_open_desc = true ∧
      ∃ f : VOPFUNC,
        vop_resolve (VnodeClass.directory.template false) vnodeop_desc.vnop_open_desc =
            some f ∧
          f ≠ VOPFUNC.vn_default_error :=
  ⟨by decide,
    supported_resolves_to_entry false VnodeClass.directory vnodeop_desc.vnop_open_desc
      (by decide) (by decide)⟩

/-- C11: for every vnode class and every operation identifier the spec's support
matrix marks "no" for that class, and on the error-node class for every
operation identifier other than inactive, reclaim and pathconf, the class's
template holds no entry for the identifier and the identifier resolves to the
shared default stub `vn_default_error`. -/
theorem unsupported_resolves_to_default (HAVE_NAMED_STREAMS : Bool) (c : VnodeClass)
    (op : vnodeop_desc)
    (hno : spec_marked_no c op = true ∨
      (c = VnodeClass.error_node ∧ not_lifecycle_op op = true)) :
    template_entry (c.template HAVE_NAMED_STREAMS) op = none ∧
      vop_resolve (c.template HAVE_NAMED_STREAMS) op = some VOPFUNC.vn_default_error := by
  cases HAVE_NAMED_STREAMS <;> cases c <;> cases op <;>
    first
    | exact absurd hno (by decide)
    | exact ⟨by decide, by decide⟩

/-- C11 (witness): readlink on the directory class, which the matrix marks "no",
and open on the error-node class. -/
theorem unsupported_resolves_to_default_witness :
    spec_marked_no VnodeClass.directory vnodeop_desc.vnop_readlink_desc = true ∧
      vop_resolve (VnodeClass.directory.template false) vnodeop_desc.vnop_readlink_desc =
        some VOPFUNC.vn_default_error ∧
      template_entry (VnodeClass.error_node.template false) vnodeop_desc.vnop_open_desc =
        none :=
  ⟨by decide,
    (unsupported_resolves_to_default false VnodeClass.directory
      vnodeop_desc.vnop_readlink_desc (Or.inl (by decide))).2,
    (unsupported_resolves_to_default false VnodeClass.error_node
      vnodeop_desc.vnop_open_desc (Or.inr ⟨rfl, by decide⟩)).1⟩

/-! ## Delegation -/

/-- A run that appends `new` to the recorded calls, of which `c` is the only
engine call, and returns `e`, delegates once. -/
theorem delegatesOnce_of_calls (w w1 : World) (e : Int) (c : Call) (new : List Call)
    (hcalls : w1.calls = w.calls ++ new) (hnew : new.filter Call.isEngine = [c]) :
    DelegatesOnce w e w1 e c := by
  refine ⟨rfl, ?_, ?_⟩
  · rw [hcalls]
    exact List.prefix_append _ _
  · unfold calls_added
    rw [hcalls, List.drop_left]
    exact hnew

/-- C12: each delegating adapter (open, close, read, write, lookup, create,
remove, mkdir, rmdir, readdir, getattr, setattr, rename, symlink, readlink, and
link once its two checks pass) returns exactly the status its engine operation
returns, whatever that status is, and the engine calls it adds are that one
call: the engine is invoked exactly once. -/
theorem adapters_delegate_once (H : Host) (E : Engine) (w : World) (mode : Int)
    (apOpen : vnop_open_args) (apClose : vnop_close_args) (apRead : vnop_read_args)
    (apWrite : vnop_write_args) (apLookup : vnop_lookup_args)
    (apCreate : vnop_create_args) (apRemove : vnop_remove_args)
    (apMkdir : vnop_mkdir_args) (apRmdir : vnop_rmdir_args)
    (apReaddir : vnop_readdir_args) (apGetattr : vnop_getattr_args)
    (apSetattr : vnop_setattr_args) (apRename : vnop_rename_args)
    (apSymlink : vnop_symlink_args) (apReadlink : vnop_readlink_args)
    (apLink : vnop_link_args)
    (hmount : H.vnode_mount apLink.a_vp = H.vnode_mount apLink.a_tdvp)
    (hlen : apLink.a_cnp.cn_namelen < H.ZAP_MAXNAMELEN) :
    DelegatesOnce w (zfs_vnop_open H E apOpen w).1 (zfs_vnop_open H E apOpen w).2
        (E.zfs_open apOpen.a_vp apOpen.a_mode (H.vfs_context_ucred apOpen.a_context)
          apOpen.a_context)
        (Call.zfs_open apOpen.a_vp apOpen.a_mode (H.vfs_context_ucred apOpen.a_context)
          apOpen.a_context) ∧
      DelegatesOnce w (zfs_vnop_close H E apClose w).1 (zfs_vnop_close H E apClose w).2
        (E.zfs_close apClose.a_vp apClose.a_fflag 1 0
          (H.vfs_context_ucred apClose.a_context) apClose.a_context)
        (Call.zfs_close apClose.a_vp apClose.a_fflag 1 0
          (H.vfs_context_ucred apClose.a_context) apClose.a_context) ∧
      DelegatesOnce w (zfs_vnop_read H E apRead w).1 (zfs_vnop_read H E apRead w).2
        (E.zfs_read apRead.a_vp apRead.a_uio (H.zfs_ioflags apRead.a_ioflag)
          (H.vfs_context_ucred apRead.a_context) apRead.a_context)
        (Call.zfs_read apRead.a_vp apRead.a_uio (H.zfs_ioflags apRead.a_ioflag)
          (H.vfs_context_ucred apRead.a_context) apRead.a_context) ∧
      DelegatesOnce w (zfs_vnop_write H E apWrite w).1 (zfs_vnop_write H E apWrite w).2
        (E.zfs_write apWrite.a_vp apWrite.a_uio (H.zfs_ioflags apWrite.a_ioflag)
          (H.vfs_context_ucred apWrite.a_context) apWrite.a_context)
        (Call.zfs_write apWrite.a_vp apWrite.a_uio (H.zfs_ioflags apWrite.a_ioflag)
          (H.vfs_context_ucred apWrite.a_context) apWrite.a_context) ∧
      DelegatesOnce w (zfs_vnop_lookup H E apLookup w).1 (zfs_vnop_lookup H E apLookup w).2
        (E.zfs_lookup apLookup.a_dvp apLookup.a_cnp apLookup.a_vpp NULL 0 NULL
          (H.vfs_context_ucred apLookup.a_context) apLookup.a_context NULL NULL)
        (Call.zfs_lookup apLookup.a_dvp apLookup.a_cnp apLookup.a_vpp NULL 0 NULL
          (H.vfs_context_ucred apLookup.a_context) apLookup.a_context NULL NULL) ∧
      DelegatesOnce w (zfs_vnop_create H E mode apCreate w).1
        (zfs_vnop_create H E mode apCreate w).2
        (E.zfs_create apCreate.a_dvp apCreate.a_cnp apCreate.a_vap
          (create_excl H apCreate.a_vap) mode apCreate.a_vpp
          (H.vfs_context_ucred apCreate.a_context) 0 apCreate.a_context NULL)
        (Call.zfs_create apCreate.a_dvp apCreate.a_cnp apCreate.a_vap
          (create_excl H apCreate.a_vap) mode apCreate.a_vpp
          (H.vfs_context_ucred apCreate.a_context) 0 apCreate.a_context NULL) ∧
      DelegatesOnce w (zfs_vnop_remove H E apRemove w).1 (zfs_vnop_remove H E apRemove w).2
        (E.zfs_remove apRemove.a_dvp apRemove.a_cnp
          (H.vfs_context_ucred apRemove.a_context) apRemove.a_context 0)
        (Call.zfs_remove apRemove.a_dvp apRemove.a_cnp
          (H.vfs_context_ucred apRemove.a_context) apRemove.a_context 0) ∧
      DelegatesOnce w (zfs_vnop_mkdir H E apMkdir w).1 (zfs_vnop_mkdir H E apMkdir w).2
        (E.zfs_mkdir apMkdir.a_dvp apMkdir.a_cnp apMkdir.a_vap apMkdir.a_vpp
          (H.vfs_context_ucred apMkdir.a_context) apMkdir.a_context 0 NULL)
        (Call.zfs_mkdir apMkdir.a_dvp apMkdir.a_cnp apMkdir.a_vap apMkdir.a_vpp
          (H.vfs_context_ucred apMkdir.a_context) apMkdir.a_context 0 NULL) ∧
      DelegatesOnce w (zfs_vnop_rmdir H E apRmdir w).1 (zfs_vnop_rmdir H E apRmdir w).2
        (E.zfs_rmdir apRmdir.a_dvp apRmdir.a_cnp NULL
          (H.vfs_context_ucred apRmdir.a_context) apRmdir.a_context 0)
        (Call.zfs_rmdir apRmdir.a_dvp apRmdir.a_cnp NULL
          (H.vfs_context_ucred apRmdir.a_context) apRmdir.a_context 0) ∧
      DelegatesOnce w (zfs_vnop_readdir H E apReaddir w).1
        (zfs_vnop_readdir H E apReaddir w).2.2
        (E.zfs_readdir apReaddir.a_vp apReaddir.a_uio
          (H.vfs_context_ucred apReaddir.a_context) apReaddir.a_eofflag 0 NULL w.mem).1
        (Call.zfs_readdir apReaddir.a_vp apReaddir.a_uio
          (H.vfs_context_ucred apReaddir.a_context) apReaddir.a_eofflag 0 NULL) ∧
      DelegatesOnce w (zfs_vnop_getattr H E apGetattr w).1
        (zfs_vnop_getattr H E apGetattr w).2
        (E.zfs_getattr apGetattr.a_vp apGetattr.a_vap 0
          (H.vfs_context_ucred apGetattr.a_context) apGetattr.a_context)
        (Call.zfs_getattr apGetattr.a_vp apGetattr.a_vap 0
          (H.vfs_context_ucred apGetattr.a_context) apGetattr.a_context) ∧
      DelegatesOnce w (zfs_vnop_setattr H E apSetattr w).1
        (zfs_vnop_setattr H E apSetattr w).2
        (E.zfs_setattr apSetattr.a_vp apSetattr.a_vap 0
          (H.vfs_context_ucred apSetattr.a_context) apSetattr.a_context)
        (Call.zfs_setattr apSetattr.a_vp apSetattr.a_vap 0
          (H.vfs_context_ucred apSetattr.a_context) apSetattr.a_context) ∧
      DelegatesOnce w (zfs_vnop_rename H E apRename w).1 (zfs_vnop_rename H E apRename w).2
        (E.zfs_rename apRename.a_fdvp apRename.a_fcnp apRename.a_tdvp apRename.a_tcnp
          (H.vfs_context_ucred apRename.a_context) apRename.a_context)
        (Call.zfs_rename apRename.a_fdvp apRename.a_fcnp apRename.a_tdvp apRename.a_tcnp
          (H.vfs_context_ucred apRename.a_context) apRename.a_context) ∧
      DelegatesOnce w (zfs_vnop_symlink H E apSymlink w).1
        (zfs_vnop_symlink H E apSymlink w).2
        (E.zfs_symlink apSymlink.a_dvp apSymlink.a_cnp apSymlink.a_vap apSymlink.a_target
          (H.vfs_context_ucred apSymlink.a_context))
        (Call.zfs_symlink apSymlink.a_dvp apSymlink.a_cnp apSymlink.a_vap
          apSymlink.a_target (H.vfs_context_ucred apSymlink.a_context)) ∧
      DelegatesOnce w (zfs_vnop_readlink H E apReadlink w).1
        (zfs_vnop_readlink H E apReadlink w).2
        (E.zfs_readlink apReadlink.a_vp apReadlink.a_uio
          (H.vfs_context_ucred apReadlink.a_context))
        (Call.zfs_readlink apReadlink.a_vp apReadlink.a_uio
          (H.vfs_context_ucred apReadlink.a_context)) ∧
      DelegatesOnce w (zfs_vnop_link H E apLink w).1 (zfs_vnop_link H E apLink w).2
        (E.zfs_link apLink.a_tdvp apLink.a_vp apLink.a_cnp
          (H.vfs_context_ucred apLink.a_context))
        (Call.zfs_link apLink.a_tdvp apLink.a_vp apLink.a_cnp
          (H.vfs_context_ucred apLink.a_context)) := by
  have hnot : ¬ apLink.a_cnp.cn_namelen ≥ H.ZAP_MAXNAMELEN := not_le.mpr hlen
  refine ⟨?_, ?_, ?_, ?_, ?_, ?_, ?_, ?_, ?_, ?_, ?_, ?_, ?_, ?_, ?_, ?_⟩
  · exact delegatesOnce_of_calls w _ _ _ [_] rfl rfl
  · exact delegatesOnce_of_calls w _ _ _ [_] rfl rfl
  · exact delegatesOnce_of_calls w _ _ _ [_] rfl rfl
  · exact delegatesOnce_of_calls w _ _ _ [_] rfl rfl
  · exact delegatesOnce_of_calls w _ _ _ [_] rfl rfl
  · exact delegatesOnce_of_calls w _ _ _ [_] rfl rfl
  · exact delegatesOnce_of_calls w _ _ _ [_] rfl rfl
  · exact delegatesOnce_of_calls w _ _ _ [_] rfl rfl
  · exact delegatesOnce_of_calls w _ _ _ [_] rfl rfl
  · exact delegatesOnce_of_calls w _ _ _ [_] rfl rfl
  · exact delegatesOnce_of_calls w _ _ _ [_] rfl rfl
  · exact delegatesOnce_of_calls w _ _ _ [_] rfl rfl
  · exact delegatesOnce_of_calls w _ _ _
      [Call.zfs_rename apRename.a_fdvp apRename.a_fcnp apRename.a_tdvp apRename.a_tcnp
          (H.vfs_context_ucred apRename.a_context) apRename.a_context,
        Call.cache_purge apRename.a_tdvp]
      (by simp [zfs_vnop_rename, World.emit, DECLARE_CRED, DECLARE_CONTEXT]) rfl
  · exact delegatesOnce_of_calls w _ _ _ [_] rfl rfl
  · exact delegatesOnce_of_calls w _ _ _ [_] rfl rfl
  · simp only [zfs_vnop_link, hmount, hnot, ne_eq, not_true_eq_false, if_false]
    exact delegatesOnce_of_calls w _ _ _ [_] rfl rfl

/-- C12 (witness): with an engine that answers 13 everywhere, the link of vnode
111 into directory 101 under "foo" passes both checks, returns 13 and adds the
one engine call `zfs_link`; the rename returns 13 as well. -/
theorem adapters_delegate_once_witness :
    osx.vnode_mount linkArgs.a_vp = osx.vnode_mount linkArgs.a_tdvp ∧
      linkArgs.a_cnp.cn_namelen < osx.ZAP_MAXNAMELEN ∧
      DelegatesOnce world0 (zfs_vnop_rename osx (engineConst 13) renameArgs world0).1
        (zfs_vnop_rename osx (engineConst 13) renameArgs world0).2 13
        (Call.zfs_rename 101 cnFoo 102 cnFoo 1001 1) ∧
      DelegatesOnce world0 (zfs_vnop_link osx (engineConst 13) linkArgs world0).1
        (zfs_vnop_link osx (engineConst 13) linkArgs world0).2 13
        (Call.zfs_link 101 111 cnFoo 1001) := by
  have h :=
    adapters_delegate_once osx (engineConst 13) world0 0o644
      ⟨111, 0, 1⟩ ⟨111, 0, 1⟩ readArgs ⟨111, 2, 0, 1⟩ ⟨101, 300, cnFoo, 1⟩ createArgs
      ⟨101, 111, cnFoo, 0, 1⟩ ⟨101, 300, cnFoo, ⟨0, 0o755⟩, 1⟩ ⟨101, 111, cnFoo, 1⟩
      readdirArgs ⟨111, 500, 1⟩ ⟨111, ⟨0, 0o644⟩, 1⟩ renameArgs
      ⟨101, 300, cnFoo, ⟨0, 0o777⟩, "target", 1⟩ ⟨111, 2, 1⟩ linkArgs
      (by decide) (by decide)
  exact ⟨by decide, by decide, h.2.2.2.2.2.2.2.2.2.2.2.2.1, h.2.2.2.2.2.2.2.2.2.2.2.2.2.2.2⟩

end ZfsVnopsOsx
